import Mathlib

/-!
Shallow embedding of the REVCISCO serial recovery engine
(`src/prompt_detector.py`, `src/command_executor.py`,
`src/recovery_state_machine.py`, `src/retry_strategies.py`,
`src/rommon_handler.py`, `src/serial_connection.py`,
`src/password_reset.py`), together with theorems settling the
behavioural claims about it.

Console text is modelled as `List Char`.  Wall-clock readings
(`time.time()`) are modelled as natural-number inputs supplied by the
environment; sleeps have no observable effect beyond the passage of
those readings.  Python floats are modelled as rationals / reals.
-/

namespace Revcisco

/-- Console text: a Python `str` is modelled as a list of characters. -/
abbrev Str := List Char

/-- Coercion helper from Lean string literals into the model's text type. -/
def str (s : String) : Str := s.data

/-- ASCII lowering of one character, as Python `str.lower` acts on the
ASCII range used by the tool's patterns. -/
def lowerCh (c : Char) : Char :=
  if 'A' ≤ c ∧ c ≤ 'Z' then Char.ofNat (c.toNat + 32) else c

/-- Lowercase an entire text (`output.lower()` in the source). -/
def lower (s : Str) : Str := s.map lowerCh

/-- Python regex `\s` over the ASCII range: space, tab, newline,
carriage return, vertical tab, form feed. -/
def isSpaceCh (c : Char) : Bool :=
  c == ' ' || c == '\t' || c == '\n' || c == '\r' ||
    c.toNat == 11 || c.toNat == 12

/-- Word characters of the hostname capture class `[A-Za-z0-9_-]`. -/
def isWordCh (c : Char) : Bool :=
  ('A' ≤ c ∧ c ≤ 'Z') || ('a' ≤ c ∧ c ≤ 'z') || ('0' ≤ c ∧ c ≤ '9') ||
    c == '_' || c == '-'

/-- `needle` occurs as a contiguous substring of `hay`
(Python `needle in hay`). -/
def hasSubstr (hay needle : Str) : Bool :=
  needle.isPrefixOf hay ||
    match hay with
    | [] => false
    | _ :: t => hasSubstr t needle

/-- Case-insensitive substring containment, the reading the spec gives
to `re.IGNORECASE` searches for literal patterns. -/
def containsCI (hay needle : Str) : Bool :=
  hasSubstr (lower hay) (lower needle)

/-- Generic leftmost search: does `p` accept some suffix of `s`?
Mirrors `re.search` trying successive start positions. -/
def searchPos (p : Str → Bool) (s : Str) : Bool :=
  p s ||
    match s with
    | [] => false
    | _ :: t => searchPos p t

/-- Remainder of `\d+>` after at least one digit has been read. -/
def digitsGtTail : Str → Bool
  | [] => false
  | c :: t => if c.isDigit then digitsGtTail t else c == '>'

/-- Matches `\d+>` at the head of the text. -/
def digitsGt : Str → Bool
  | [] => false
  | c :: t => c.isDigit && digitsGtTail t

/-- Matches `\s*\d+>` at the head of the text (the part of the first
ROM-monitor pattern following the literal `rommon`; its trailing `\s*`
always matches). -/
def wsThenDigitsGt : Str → Bool
  | [] => false
  | c :: t => if isSpaceCh c then wsThenDigitsGt t else digitsGt (c :: t)

/-- Matches `\s*$` in `re.MULTILINE` mode at the head of the text:
whitespace may be consumed until end of string or a point followed by a
newline. -/
def wsEol : Str → Bool
  | [] => true
  | c :: t => if c == '\n' then true else if isSpaceCh c then wsEol t else false

/-- `PromptDetector.ROM_MONITOR_PATTERNS`: `rommon\s*\d+>\s*`,
`rommon>\s*`, `\(rommon\)>\s*`, all `re.IGNORECASE`. -/
def rommonMatch (out : Str) : Bool :=
  let l := lower out
  searchPos
    (fun s => (str "rommon").isPrefixOf s && wsThenDigitsGt (s.drop 6)) l ||
  hasSubstr l (str "rommon>") || hasSubstr l (str "(rommon)>")

/-- `PromptDetector.PASSWORD_PROMPT_PATTERNS`: `[Pp]assword:\s*$`,
`[Ee]nter\s+[Pp]assword:\s*$`, `[Pp]assword\s+for\s+[^:]+:\s*$`
(`re.MULTILINE`). -/
def passwordMatch (out : Str) : Bool :=
  let pwdColon : Str → Bool := fun s =>
    match s with
    | c :: t => (c == 'P' || c == 'p') && (str "assword:").isPrefixOf t
    | [] => false
  let p1 : Str → Bool := fun s => pwdColon s && wsEol (s.drop 9)
  let p2 : Str → Bool := fun s =>
    match s with
    | c :: t =>
      (c == 'E' || c == 'e') && (str "nter").isPrefixOf t &&
        match (t.drop 4).dropWhile (fun x => isSpaceCh x) with
        | rest =>
          -- \s+ requires at least one whitespace character
          decide ((t.drop 4).length ≠ rest.length) && p1 rest
    | [] => false
  let p3 : Str → Bool := fun s =>
    match s with
    | c :: t =>
      (c == 'P' || c == 'p') && (str "assword").isPrefixOf t &&
        let afterPwd := t.drop 7
        let afterWs1 := afterPwd.dropWhile (fun x => isSpaceCh x)
        decide (afterPwd.length ≠ afterWs1.length) &&
          (str "for").isPrefixOf afterWs1 &&
          -- \s+[^:]+: one whitespace char, then at least one further
          -- character before the first colon (whitespace is itself a
          -- non-colon character, so the engine may shift it into the
          -- [^:]+ group), then the colon, then \s*$.
          match afterWs1.drop 3 with
          | c2 :: rest =>
            isSpaceCh c2 &&
              let body := rest.takeWhile (fun x => x ≠ ':')
              decide (body.length ≠ 0) &&
                match rest.drop body.length with
                | ':' :: r => wsEol r
                | _ => false
          | [] => false
    | [] => false
  searchPos p1 out || searchPos p2 out || searchPos p3 out

/-- Tries to match `\s*\(config[^)]*\)#\s*$` at the head of the text:
the part of the first config-mode pattern following the hostname
capture.  (The second and third config patterns of the source are
special cases of this one and can never fire first.) -/
def configAfterHost (s : Str) : Bool :=
  let afterWs := s.dropWhile (fun x => isSpaceCh x)
  (str "(config").isPrefixOf afterWs &&
    let afterLit := afterWs.drop 7
    let body := afterLit.takeWhile (fun x => x ≠ ')')
    match afterLit.drop body.length with
    | ')' :: '#' :: r => wsEol r
    | _ => false

/-- Tries to match `\s*#\s*$` at the head of the text (privileged-mode
pattern after the hostname capture). -/
def hashAfterHost (s : Str) : Bool :=
  match s.dropWhile (fun x => isSpaceCh x) with
  | '#' :: r => wsEol r
  | _ => false

/-- Tries to match `\s*>\s*$` at the head of the text (user-mode
pattern after the hostname capture). -/
def gtAfterHost (s : Str) : Bool :=
  match s.dropWhile (fun x => isSpaceCh x) with
  | '>' :: r => wsEol r
  | _ => false

/-- Leftmost search for `([A-Za-z0-9_-]+)` followed by `after`,
returning the captured hostname.  At the leftmost viable start the
greedy capture takes the whole maximal word-character run. -/
def hostCapture (after : Str → Bool) : Str → Option Str
  | [] => none
  | c :: t =>
    let run := (c :: t).takeWhile (fun x => isWordCh x)
    if run.length ≠ 0 && after ((c :: t).drop run.length) then
      some run
    else
      hostCapture after t

/-- `PromptDetector.BOOT_PATTERNS`: literal substrings, ignoring case.
(The `Cisco IOS XE` pattern is subsumed by `Cisco IOS`.) -/
def bootMatch (out : Str) : Bool :=
  containsCI out (str "System Bootstrap") || containsCI out (str "Initializing") ||
  containsCI out (str "Loading") || containsCI out (str "Starting") ||
  containsCI out (str "Cisco IOS")

/-- `PromptDetector.ERROR_PATTERNS`: literal substrings, ignoring case. -/
def errorMatch (out : Str) : Bool :=
  containsCI out (str "% Invalid input") || containsCI out (str "% Invalid command") ||
  containsCI out (str "% Incomplete command") || containsCI out (str "% Ambiguous command") ||
  containsCI out (str "% Error") || containsCI out (str "% Unknown command")

/-- `prompt_detector.RouterState`. -/
inductive RouterState where
  | UNKNOWN
  | BOOTING
  | ROM_MONITOR
  | USER_MODE
  | PRIVILEGED_MODE
  | CONFIG_MODE
  | PASSWORD_PROMPT
  | ERROR
deriving DecidableEq

/-- Pure part of `PromptDetector.detect_prompt`: the classification of
a console buffer, with the captured hostname when one exists.  The
pattern families are tried in the source's order: ROM monitor →
password → config → privileged → user → boot → error. -/
def classify (out : Str) : Option RouterState × Option Str :=
  if rommonMatch out then (some RouterState.ROM_MONITOR, none)
  else if passwordMatch out then (some RouterState.PASSWORD_PROMPT, none)
  else
    match hostCapture configAfterHost out with
    | some h => (some RouterState.CONFIG_MODE, some h)
    | none =>
      match hostCapture hashAfterHost out with
      | some h => (some RouterState.PRIVILEGED_MODE, some h)
      | none =>
        match hostCapture gtAfterHost out with
        | some h => (some RouterState.USER_MODE, some h)
        | none =>
          if bootMatch out then (some RouterState.BOOTING, none)
          else if errorMatch out then (some RouterState.ERROR, none)
          else (none, none)

/-- Mutable fields of `PromptDetector`: `last_detected_state` and
`last_hostname`. -/
structure Detector where
  last_detected_state : RouterState
  last_hostname : Option Str
deriving DecidableEq

/-- The state update each branch of `detect_prompt` performs: all
successful non-error classifications store the state, those with a
captured hostname store it too; the error branch and the no-match
branch store nothing. -/
def detectorUpdate (d : Detector) (st : RouterState) (hn : Option Str) : Detector :=
  if st = RouterState.ERROR then d
  else
    match hn with
    | some h => ⟨st, some h⟩
    | none => ⟨st, d.last_hostname⟩

/-- `PromptDetector.detect_prompt`, with its state effect made explicit:
returns the classification, the hostname, and the detector after the
call.  (The source's third `match_info` component carries only the
matched text for logging and is not modelled.) -/
def detectPrompt (d : Detector) (out : Str) :
    Option RouterState × Option Str × Detector :=
  match classify out with
  | (some st, hn) => (some st, hn, detectorUpdate d st hn)
  | (none, _) => (none, none, d)

/-- `CommandExecutor.more_pattern.search(output)`: case-insensitive
search for the literal pagination marker `--More--`. -/
def moreSearch (out : Str) : Bool := containsCI out (str "--More--")

/-- Result of one `CommandExecutor._execute_once` run: the returned
`(success, output)` pair, the detector after the run, and the number of
pagination spaces written to the line. -/
structure ExecResult where
  ok : Bool
  output : Str
  det : Detector
  spaces : ℕ
deriving DecidableEq

/-- The read loop of `CommandExecutor._execute_once` (source lines
86-128).  The serial line is modelled by the list of chunks that
successive `read_output(0.5)` calls return (an exhausted list reads
empty chunks); the deadline is modelled by the number `fuel` of loop
iterations that fit before `end_time`.  Per source: an empty chunk only
sleeps; a non-empty chunk is appended to the accumulated output; if the
accumulated output contains `--More--` a space is written and the loop
continues without prompt detection; otherwise the accumulated output is
classified, a match equal to the expectation (or any match when no
expectation was given) returns success, an `ERROR` classification
returns failure, and any other match falls through to the next
iteration. -/
def execLoop (expected : Option RouterState) :
    ℕ → List Str → Str → Detector → ℕ → ExecResult
  | 0, _, acc, d, sp => ⟨false, acc, d, sp⟩
  | fuel + 1, chunks, acc, d, sp =>
    match chunks with
    | [] => execLoop expected fuel [] acc d sp
    | c :: rest =>
      if c.isEmpty then execLoop expected fuel rest acc d sp
      else
        let out := acc ++ c
        if moreSearch out then execLoop expected fuel rest out d (sp + 1)
        else
          match detectPrompt d out with
          | (some s, _, d2) =>
            if expected = none ∨ expected = some s then ⟨true, out, d2, sp⟩
            else if s = RouterState.ERROR then ⟨false, out, d2, sp⟩
            else execLoop expected fuel rest out d2 sp
          | (none, _, d2) => execLoop expected fuel rest out d2 sp

/-- `CommandExecutor._execute_once`.  `writeOk` models whether
`serial_conn.write(command)` reported a non-zero byte count; the echo
read only logs and is not otherwise observable. -/
def executeOnce (writeOk : Bool) (expected : Option RouterState)
    (fuel : ℕ) (chunks : List Str) (d : Detector) : ExecResult :=
  if writeOk then execLoop expected fuel chunks [] d 0
  else ⟨false, str "Failed to write command", d, 0⟩

/-- The verification half of `CommandExecutor.save_config` (source
lines 174-194): `execOut` is the output returned by the initial
`execute`, `extra` the text gathered by the additional 10 s read that
is performed when a `Destination filename` prompt is present.  Success
iff the final output contains `bytes copied` after lowering, or the
exact text `[OK]`. -/
def saveConfigVerdict (execOut extra : Str) : Bool :=
  let output :=
    if hasSubstr execOut (str "Destination filename") then execOut ++ extra
    else execOut
  hasSubstr (lower output) (str "bytes copied") || hasSubstr output (str "[OK]")

/-- `recovery_state_machine.RecoveryState`. -/
inductive RecoveryState where
  | INITIAL
  | CONNECTED
  | WAITING_BOOT
  | SENDING_BREAK
  | ROM_MONITOR
  | CONFIG_REG_SET
  | REBOOTING
  | IOS_NO_CONFIG
  | SYSTEM_DETECTION
  | PASSWORD_RESET
  | CONFIG_SAVED
  | COMPLETE
  | ERROR
  | ROLLBACK
deriving DecidableEq

/-- The `value` string of each `RecoveryState` enum member. -/
def RecoveryState.value : RecoveryState → Str
  | .INITIAL => str "initial"
  | .CONNECTED => str "connected"
  | .WAITING_BOOT => str "waiting_boot"
  | .SENDING_BREAK => str "sending_break"
  | .ROM_MONITOR => str "rom_monitor"
  | .CONFIG_REG_SET => str "config_reg_set"
  | .REBOOTING => str "rebooting"
  | .IOS_NO_CONFIG => str "ios_no_config"
  | .SYSTEM_DETECTION => str "system_detection"
  | .PASSWORD_RESET => str "password_reset"
  | .CONFIG_SAVED => str "config_saved"
  | .COMPLETE => str "complete"
  | .ERROR => str "error"
  | .ROLLBACK => str "rollback"

/-- `RecoveryStateMachine.VALID_TRANSITIONS` as a total function; every
state is a key of the source dictionary (so the `.get(..., [])` default
never fires) and `COMPLETE` maps to the empty list. -/
def validTransitions : RecoveryState → List RecoveryState
  | .INITIAL => [.CONNECTED, .ERROR]
  | .CONNECTED => [.WAITING_BOOT, .ERROR]
  | .WAITING_BOOT => [.SENDING_BREAK, .ERROR]
  | .SENDING_BREAK => [.ROM_MONITOR, .SENDING_BREAK, .ERROR]
  | .ROM_MONITOR => [.CONFIG_REG_SET, .ERROR]
  | .CONFIG_REG_SET => [.REBOOTING, .ERROR]
  | .REBOOTING => [.IOS_NO_CONFIG, .ERROR]
  | .IOS_NO_CONFIG => [.SYSTEM_DETECTION, .PASSWORD_RESET, .ERROR]
  | .SYSTEM_DETECTION => [.PASSWORD_RESET, .ERROR]
  | .PASSWORD_RESET => [.CONFIG_SAVED, .ERROR]
  | .CONFIG_SAVED => [.COMPLETE, .ERROR]
  | .ERROR => [.ROLLBACK, .INITIAL]
  | .ROLLBACK => [.INITIAL, .ERROR]
  | .COMPLETE => []

/-- One entry of `state_history` (the free-form `data` dictionary of
the source record is not modelled). -/
structure TransitionRecord where
  from_state : Str
  to_state : Str
  timestamp : ℕ
  reason : Str
deriving DecidableEq

/-- `recovery_state_machine.StateCheckpoint` (the free-form `data`
dictionary is not modelled). -/
structure StateCheckpoint where
  state : RecoveryState
  timestamp : ℕ
  config_register : Option Str
  config_backup : Option Str
deriving DecidableEq

/-- Mutable fields of `RecoveryStateMachine`. -/
structure Machine where
  current_state : RecoveryState
  state_history : List TransitionRecord
  checkpoints : List StateCheckpoint
  original_config_register : Option Str
  config_backup : Option Str
deriving DecidableEq

/-- `RecoveryStateMachine.transition` (source lines 68-105): an edge
absent from the table returns false and changes nothing; a legal edge
installs the new state and appends one history record built from the
old and new states' `value` strings.  `t` is the `time.time()` reading
taken inside the call. -/
def Machine.transition (m : Machine) (new : RecoveryState) (t : ℕ)
    (reason : Str) : Bool × Machine :=
  if new ∈ validTransitions m.current_state then
    (true,
      ⟨new,
        m.state_history ++ [⟨m.current_state.value, new.value, t, reason⟩],
        m.checkpoints, m.original_config_register, m.config_backup⟩)
  else
    (false, m)

/-- `RecoveryStateMachine.restore_checkpoint` (source lines 123-137):
with no explicit checkpoint the latest one is used and an empty
checkpoint list fails; otherwise the current state, the original config
register and the config backup are set directly from the checkpoint.
No transition legality check is made and no history record is
appended. -/
def Machine.restoreCheckpoint (m : Machine) (cp : Option StateCheckpoint) :
    Bool × Machine :=
  match cp with
  | some c =>
    (true, ⟨c.state, m.state_history, m.checkpoints, c.config_register,
      c.config_backup⟩)
  | none =>
    match m.checkpoints.getLast? with
    | none => (false, m)
    | some c =>
      (true, ⟨c.state, m.state_history, m.checkpoints, c.config_register,
        c.config_backup⟩)

/-- `RecoveryStateMachine.rollback` (source lines 176-185): fails with
no checkpoint; otherwise transitions to `ROLLBACK` and, if that edge
was legal, restores the latest checkpoint. -/
def Machine.rollback (m : Machine) (t : ℕ) : Bool × Machine :=
  if m.checkpoints.length > 0 then
    let (ok, m1) := m.transition RecoveryState.ROLLBACK t
      (str "Rolling back to checkpoint")
    if ok then m1.restoreCheckpoint none else (false, m1)
  else
    (false, m)

/-- `retry_strategies.RetryStrategy`. -/
inductive RetryStrategy where
  | EXPONENTIAL_BACKOFF
  | LINEAR_BACKOFF
  | FIXED_DELAY
  | ADAPTIVE_BACKOFF
  | IMMEDIATE
  | PROGRESSIVE_DELAY
deriving DecidableEq

/-- `retry_strategies.RetryConfig`; the float fields are modelled as
rationals. -/
structure RetryConfig where
  max_retries : ℕ
  base_delay : ℚ
  max_delay : ℚ
  strategy : RetryStrategy
deriving DecidableEq

/-- `RetryManager.calculate_delay` (source lines 48-66).  The delay is
computed per strategy and clamped to `max_delay`.  The Python
`attempt ** 1.5` of the progressive strategy is the real number
`sqrt(attempt^3)`, and the `random.uniform(0, base_delay)` jitter of
the adaptive strategy is supplied as the explicit input `jitter`. -/
noncomputable def calculateDelay (attempt : ℕ) (config : RetryConfig)
    (jitter : ℝ) : ℝ :=
  let delay : ℝ :=
    match config.strategy with
    | .EXPONENTIAL_BACKOFF => (config.base_delay : ℝ) * 2 ^ (attempt - 1)
    | .LINEAR_BACKOFF => (config.base_delay : ℝ) * attempt
    | .FIXED_DELAY => (config.base_delay : ℝ)
    | .IMMEDIATE => 0
    | .PROGRESSIVE_DELAY =>
      min ((config.base_delay : ℝ) * Real.sqrt ((attempt : ℝ) ^ 3))
        (config.max_delay : ℝ)
    | .ADAPTIVE_BACKOFF => (config.base_delay : ℝ) * 2 ^ (attempt - 1) + jitter
  min delay (config.max_delay : ℝ)

/-- `RetryManager.should_retry` (source lines 68-80), with the
`isinstance` scan over `permanent_errors` abstracted into the predicate
`perm` on the raised error. -/
def shouldRetry {E : Type} (e : E) (attempt : ℕ) (config : RetryConfig)
    (perm : E → Bool) : Bool :=
  if config.max_retries ≤ attempt then false
  else if perm e then false
  else true

/-- The attempt loop of `RetryManager.retry` (source lines 107-164).
The thunk's behaviour on its i-th invocation is given by
`outcomes i`: `Except.ok v` models a normal return of `v` and
`Except.error e` a raised exception.  The result pairs the loop's
outcome (`Except.error` models the re-raise; its `Option` payload is
the `last_exception` variable, `none` only when the loop body never
ran) with the number of thunk invocations made. -/
def retryLoop {E A : Type} (outcomes : ℕ → Except E A) (config : RetryConfig)
    (perm : E → Bool) : ℕ → ℕ → Option E → Except (Option E) A × ℕ
  | _, 0, last => (Except.error last, 0)
  | attempt, fuel + 1, _ =>
    match outcomes attempt with
    | Except.ok v => (Except.ok v, 1)
    | Except.error e =>
      if shouldRetry e attempt config perm then
        let (r, n) := retryLoop outcomes config perm (attempt + 1) fuel (some e)
        (r, n + 1)
      else
        (Except.error (some e), 1)

/-- `RetryManager.retry`: run the attempt loop from attempt 1 with
`max_retries` iterations available. -/
def retryRun {E A : Type} (outcomes : ℕ → Except E A) (config : RetryConfig)
    (perm : E → Bool) : Except (Option E) A × ℕ :=
  retryLoop outcomes config perm 1 config.max_retries none

/-- Hardware-level outcome of one low-level break method call in
`serial_connection.py`: the port precheck fails (`notOpen`, method
returns false recording nothing), the operation succeeds (`ok`,
recording a success entry), or the underlying call raises (`exc`,
recording a failure entry). -/
inductive MethodOutcome where
  | notOpen
  | ok
  | exc
deriving DecidableEq

/-- One entry of `MetricsCollector.break_attempts`; the wall-clock
`duration` and `timestamp` fields are not modelled. -/
structure BreakRecord where
  method : Str
  success : Bool
deriving DecidableEq

/-- `SerialConnection.send_break_standard` (also reached through
`send_break_extended`, which merely doubles the duration): returns
whether the break was sent and the break-attempt records appended,
given the hardware outcome.  The same shape models `send_break_ioctl`
and `send_break_signal_toggle` with their method names. -/
def breakMethodRun (name : Str) (o : MethodOutcome) : Bool × List BreakRecord :=
  match o with
  | .notOpen => (false, [])
  | .ok => (true, [⟨name, true⟩])
  | .exc => (false, [⟨name, false⟩])

/-- `SerialConnection.send_break_multiple`: three standard pulses, each
recording under the `standard` method name; success if any pulse
succeeded. -/
def breakMultipleRun (o1 o2 o3 : MethodOutcome) : Bool × List BreakRecord :=
  let (s1, r1) := breakMethodRun (str "standard") o1
  let (s2, r2) := breakMethodRun (str "standard") o2
  let (s3, r3) := breakMethodRun (str "standard") o3
  (s1 || s2 || s3, r1 ++ r2 ++ r3)

/-- `SerialConnection.send_break` with no explicit method (source lines
353-389): try standard, extended, multiple, ioctl, signal_toggle in
order, stopping at the first success.  `hw k` gives the hardware
outcome of the k-th low-level call (standard and extended consume one
each, multiple consumes three, ioctl and signal_toggle one each). -/
def sendBreak (hw : ℕ → MethodOutcome) : Bool × List BreakRecord :=
  let (s1, r1) := breakMethodRun (str "standard") (hw 0)
  if s1 then (true, r1) else
  let (s2, r2) := breakMethodRun (str "standard") (hw 1)
  if s2 then (true, r1 ++ r2) else
  let (s3, r3) := breakMultipleRun (hw 2) (hw 3) (hw 4)
  if s3 then (true, r1 ++ r2 ++ r3) else
  let (s4, r4) := breakMethodRun (str "ioctl") (hw 5)
  if s4 then (true, r1 ++ r2 ++ r3 ++ r4) else
  let (s5, r5) := breakMethodRun (str "signal_toggle") (hw 6)
  (s5, r1 ++ r2 ++ r3 ++ r4 ++ r5)

/-- Result of `RommonHandler.send_break_sequence`. -/
structure BreakSeqResult where
  ok : Bool
  machine : Machine
  det : Detector
  records : List BreakRecord
deriving DecidableEq

/-- The attempt loop of `RommonHandler.send_break_sequence` (source
lines 64-91).  `elapsed i` is the `time.time() - start_time` reading at
the guard of attempt `i`, `hw i` the hardware outcomes consumed by the
`send_break` call of attempt `i`, and `buffer i` the accumulated serial
output inspected after attempt `i`'s pulse.  On a successful pulse the
output buffer is classified; only a `ROM_MONITOR` classification ends
the loop successfully. -/
def breakAttemptLoop (timeout : ℕ) (elapsed : ℕ → ℕ)
    (hw : ℕ → ℕ → MethodOutcome) (buffer : ℕ → Str) :
    ℕ → ℕ → Detector → List BreakRecord → Bool × Detector × List BreakRecord
  | _, 0, d, recs => (false, d, recs)
  | attempt, fuel + 1, d, recs =>
    if timeout < elapsed attempt then (false, d, recs)
    else
      let sb := sendBreak (hw attempt)
      if sb.1 then
        match detectPrompt d (buffer attempt) with
        | (st, _, d2) =>
          if st = some RouterState.ROM_MONITOR then (true, d2, recs ++ sb.2)
          else breakAttemptLoop timeout elapsed hw buffer (attempt + 1) fuel d2 (recs ++ sb.2)
      else
        breakAttemptLoop timeout elapsed hw buffer (attempt + 1) fuel d (recs ++ sb.2)

/-- `RommonHandler.send_break_sequence` (source lines 50-98): announce
the `SENDING_BREAK` transition, run up to `max_attempts = 5` break
attempts, and on success announce the `ROM_MONITOR` transition.  `t1`
and `t2` are the `time.time()` readings of the two transitions. -/
def sendBreakSequence (timeout : ℕ) (elapsed : ℕ → ℕ)
    (hw : ℕ → ℕ → MethodOutcome) (buffer : ℕ → Str) (t1 t2 : ℕ)
    (m : Machine) (d : Detector) : BreakSeqResult :=
  let m1 := (m.transition RecoveryState.SENDING_BREAK t1
    (str "Sending break sequence")).2
  let bl := breakAttemptLoop timeout elapsed hw buffer 1 5 d []
  if bl.1 then
    ⟨true, (m1.transition RecoveryState.ROM_MONITOR t2
      (str "Entered ROM monitor")).2, bl.2.1, bl.2.2⟩
  else
    ⟨false, m1, bl.2.1, bl.2.2⟩

/-- Boolean outcomes of the sub-steps composed by
`PasswordReset.complete_password_reset`.  Each sub-step performs serial
I/O whose success is abstracted into one oracle bit; the state-machine
effects of the sub-steps are modelled exactly. -/
structure StepOutcomes where
  verifyAccess : Bool
  resetEnable : Bool
  resetConsole : Bool
  resetVty : Bool
  restoreConfreg : Bool
  save : Bool
  verify : Bool
deriving DecidableEq

/-- `PasswordReset.reset_enable_secret`: announces the
`PASSWORD_RESET` transition, then the config-mode dialogue decides the
boolean result (oracle `r`). -/
def resetEnableSecretStep (r : Bool) (t : ℕ) (m : Machine) : Bool × Machine :=
  (r, (m.transition RecoveryState.PASSWORD_RESET t
    (str "Resetting enable secret")).2)

/-- `PasswordReset.save_configuration`: announces the `CONFIG_SAVED`
transition, then `save_config` decides the boolean result (oracle
`r`). -/
def saveConfigurationStep (r : Bool) (t : ℕ) (m : Machine) : Bool × Machine :=
  (r, (m.transition RecoveryState.CONFIG_SAVED t
    (str "Saving configuration")).2)

/-- `PasswordReset.complete_password_reset` (source lines 252-290):
verify access, reset the enable secret, run the optional console and
VTY resets with their results discarded, restore the config register,
save, run the final verification with its result discarded, then
announce the `COMPLETE` transition and return true.  `o` carries the
oracle outcome of each sub-step; `t1 t2 t3` are the `time.time()`
readings of the three announced transitions. -/
def completePasswordReset (o : StepOutcomes) (consoleGiven vtyGiven interactive : Bool)
    (t1 t2 t3 : ℕ) (m : Machine) : Bool × Machine :=
  if !o.verifyAccess then (false, m)
  else
    let (rEnable, m1) := resetEnableSecretStep o.resetEnable t1 m
    if !rEnable then (false, m1)
    else
      -- optional console reset: invoked when a password was supplied or
      -- the session is interactive; its boolean result is discarded
      let _ := if consoleGiven || interactive then some o.resetConsole else none
      -- optional VTY reset: same shape, result discarded
      let _ := if vtyGiven || interactive then some o.resetVty else none
      if !o.restoreConfreg then (false, m1)
      else
        let (rSave, m2) := saveConfigurationStep o.save t2 m1
        if !rSave then (false, m2)
        else
          -- verify_password_reset() is called but its result is discarded
          let _ := o.verify
          (true, (m2.transition RecoveryState.COMPLETE t3
            (str "Password reset complete")).2)

/-- Detector value with nothing remembered yet, as built by
`PromptDetector.__init__`. -/
def initDetector : Detector := ⟨RouterState.UNKNOWN, none⟩

/-- A fresh machine whose current state is `s` (the source initialises
at `INITIAL`; test fixtures start from later states). -/
def machineAt (s : RecoveryState) : Machine := ⟨s, [], [], none, none⟩

/-- A command-execution retry configuration, as built by
`CommandExecutor.execute` (`max_retries=3, base_delay=1.0`). -/
def execRetryConfig : RetryConfig :=
  ⟨3, 1, 60, RetryStrategy.EXPONENTIAL_BACKOFF⟩

/-- Sub-step outcome vector where every dialogue succeeds except the
final verification. -/
def stepsVerifyFails : StepOutcomes := ⟨true, true, true, true, true, true, false⟩

/-- The classification returned by `detect_prompt` does not depend on
the detector's remembered state. -/
theorem detectPrompt_fst (d : Detector) (out : Str) :
    (detectPrompt d out).1 = (classify out).1 := by
  unfold detectPrompt
  rcases h : classify out with ⟨st, hn⟩
  cases st <;> simp [h]

/-- After `transition`, the current state is the target when the edge
is legal and is otherwise unchanged. -/
theorem transition_current (m : Machine) (s : RecoveryState) (t : ℕ) (r : Str) :
    (m.transition s t r).2.current_state
      = if s ∈ validTransitions m.current_state then s else m.current_state := by
  unfold Machine.transition
  split <;> rfl

/-- When the first (standard) hardware call succeeds, `send_break`
returns success having recorded exactly one successful standard
attempt. -/
theorem sendBreak_ok (hw : ℕ → MethodOutcome) (h : hw 0 = MethodOutcome.ok) :
    sendBreak hw = (true, [⟨str "standard", true⟩]) := by
  unfold sendBreak breakMethodRun
  rw [h]
  rfl

/-- C1: `transition` refuses edges absent from the table (returning
false and leaving the machine, in particular its history, untouched),
and on a legal edge returns true, installs the target state and appends
exactly one history record carrying the old state's `value` as its
from-field and the new state's `value` as its to-field. -/
theorem c1_transition_contract (m : Machine) (s : RecoveryState) (t : ℕ) (r : Str) :
    (s ∉ validTransitions m.current_state → m.transition s t r = (false, m)) ∧
    (s ∈ validTransitions m.current_state →
      (m.transition s t r).1 = true ∧
      (m.transition s t r).2.current_state = s ∧
      (m.transition s t r).2.state_history
        = m.state_history ++ [⟨m.current_state.value, s.value, t, r⟩]) := by
  unfold Machine.transition
  by_cases h : s ∈ validTransitions m.current_state <;> simp [h]

theorem c1_transition_contract_witness :
    (machineAt RecoveryState.INITIAL).transition RecoveryState.COMPLETE 0 (str "bad")
      = (false, machineAt RecoveryState.INITIAL) ∧
    ((machineAt RecoveryState.INITIAL).transition RecoveryState.CONNECTED 5 (str "ok")).1 = true ∧
    ((machineAt RecoveryState.INITIAL).transition RecoveryState.CONNECTED 5 (str "ok")).2.current_state
      = RecoveryState.CONNECTED ∧
    ((machineAt RecoveryState.INITIAL).transition RecoveryState.CONNECTED 5 (str "ok")).2.state_history
      = (machineAt RecoveryState.INITIAL).state_history
          ++ [⟨(machineAt RecoveryState.INITIAL).current_state.value,
                RecoveryState.CONNECTED.value, 5, str "ok"⟩] :=
  ⟨(c1_transition_contract (machineAt RecoveryState.INITIAL) RecoveryState.COMPLETE 0 (str "bad")).1
      (by decide),
   (c1_transition_contract (machineAt RecoveryState.INITIAL) RecoveryState.CONNECTED 5 (str "ok")).2
      (by decide)⟩

/-- C7: for every retry configuration with a nonnegative `max_delay`,
every strategy, every jitter and every attempt number at least 1, the
delay computed by `calculate_delay` is at most `max_delay`, because the
final clamp takes the minimum with `max_delay`. -/
theorem c7_delay_clamped (attempt : ℕ) (config : RetryConfig) (jitter : ℝ)
    (_hmax : 0 ≤ config.max_delay) (_hatt : 1 ≤ attempt) :
    calculateDelay attempt config jitter ≤ (config.max_delay : ℝ) := by
  unfold calculateDelay
  exact min_le_right _ _

theorem c7_delay_clamped_witness :
    (0 : ℚ) ≤ execRetryConfig.max_delay ∧ (1 : ℕ) ≤ 2 ∧
    calculateDelay 2 execRetryConfig 0 ≤ (execRetryConfig.max_delay : ℝ) :=
  ⟨by decide, by decide, c7_delay_clamped 2 execRetryConfig 0 (by decide) (by decide)⟩

/-- C8: a `detect_prompt` call that classifies the input as `ERROR`, or
that matches nothing, leaves the detector — its remembered state and
hostname — exactly as it was, so later `get_current_state` and
`get_hostname` still report the values stored by the last successful
non-error classification. -/
theorem c8_error_preserves_detector (d : Detector) (out : Str)
    (h : (detectPrompt d out).1 = some RouterState.ERROR ∨
         (detectPrompt d out).1 = none) :
    (detectPrompt d out).2.2 = d := by
  unfold detectPrompt at *
  rcases hc : classify out with ⟨st, hn⟩
  rw [hc] at h
  match st, h with
  | none, _ => simp
  | some s, h =>
    have hs : s = RouterState.ERROR := by
      rcases h with h | h
      · simpa using h
      · simp at h
    subst hs
    simp [detectorUpdate]

theorem c8_error_preserves_detector_witness :
    ((detectPrompt ⟨RouterState.PRIVILEGED_MODE, some (str "Router")⟩
        (str "% Invalid input")).1 = some RouterState.ERROR ∨
      (detectPrompt ⟨RouterState.PRIVILEGED_MODE, some (str "Router")⟩
        (str "% Invalid input")).1 = none) ∧
    (detectPrompt ⟨RouterState.PRIVILEGED_MODE, some (str "Router")⟩
        (str "% Invalid input")).2.2
      = ⟨RouterState.PRIVILEGED_MODE, some (str "Router")⟩ :=
  ⟨Or.inl (by decide),
   c8_error_preserves_detector ⟨RouterState.PRIVILEGED_MODE, some (str "Router")⟩
     (str "% Invalid input") (Or.inl (by decide))⟩

/-- C10: `restore_checkpoint` with an explicit checkpoint always
succeeds and writes the checkpoint's state, config register and backup
directly into the machine, leaving the history and checkpoint list
untouched and consulting no transition table; with no argument it fails
on an empty checkpoint list; and `rollback` therefore appends only the
record of its own `ROLLBACK` transition before landing directly on the
checkpoint's state, which need not be a legal successor of
`ROLLBACK`. -/
theorem c10_restore_bypasses_table :
    (∀ (m : Machine) (c : StateCheckpoint),
      m.restoreCheckpoint (some c)
        = (true, ⟨c.state, m.state_history, m.checkpoints,
            c.config_register, c.config_backup⟩)) ∧
    (∀ m : Machine, m.checkpoints = [] →
      m.restoreCheckpoint none = (false, m)) ∧
    (∀ (m : Machine) (c : StateCheckpoint) (t : ℕ),
      m.current_state = RecoveryState.ERROR → m.checkpoints = [c] →
      (m.rollback t).2.current_state = c.state ∧
      (m.rollback t).2.state_history
        = m.state_history
            ++ [⟨RecoveryState.ERROR.value, RecoveryState.ROLLBACK.value, t,
                  str "Rolling back to checkpoint"⟩]) := by
  refine ⟨fun m c => rfl, fun m h => ?_, fun m c t h1 h2 => ?_⟩
  · simp [Machine.restoreCheckpoint, h]
  · simp [Machine.rollback, Machine.transition, Machine.restoreCheckpoint,
      h1, h2, validTransitions]

theorem c10_restore_bypasses_table_witness :
    (machineAt RecoveryState.ROLLBACK).restoreCheckpoint
        (some ⟨RecoveryState.CONNECTED, 0, none, none⟩)
      = (true, ⟨RecoveryState.CONNECTED,
          (machineAt RecoveryState.ROLLBACK).state_history,
          (machineAt RecoveryState.ROLLBACK).checkpoints, none, none⟩) ∧
    RecoveryState.CONNECTED ∉ validTransitions RecoveryState.ROLLBACK :=
  ⟨c10_restore_bypasses_table.1 (machineAt RecoveryState.ROLLBACK)
      ⟨RecoveryState.CONNECTED, 0, none, none⟩,
   by decide⟩

/-- C2 fails as stated: with no expected mode requested, an output the
detector classifies as `ERROR` is returned as success, because the
`expected_prompt is None` test fires before the error branch is
reached.  Concretely, executing with `expected_prompt=None` against a
line that answers `% Invalid input` yields `(True, output)`. -/
theorem c2_counterexample :
    (classify (str "% Invalid input")).1 = some RouterState.ERROR ∧
    executeOnce true none 5 [str "% Invalid input"] initDetector
      = ⟨true, str "% Invalid input", initDetector, 0⟩ := by
  constructor
  · decide
  · decide

/-- C2 amended: whenever the caller did request an expected mode and
that mode is not `ERROR` itself, an accumulated output that the
detector classifies as `ERROR` (with no pending pagination marker)
makes the read loop return failure together with that accumulated
output.  With no expected mode, the same classification is returned as
success. -/
theorem c2_error_returns_failure (p : RouterState) (hp : p ≠ RouterState.ERROR)
    (fuel : ℕ) (c : Str) (cs : List Str) (acc : Str) (d : Detector) (sp : ℕ)
    (hc : c ≠ [])
    (hm : moreSearch (acc ++ c) = false)
    (hd : (classify (acc ++ c)).1 = some RouterState.ERROR) :
    (execLoop (some p) (fuel + 1) (c :: cs) acc d sp).ok = false ∧
    (execLoop (some p) (fuel + 1) (c :: cs) acc d sp).output = acc ++ c := by
  have hcE : c.isEmpty = false := by
    cases c with
    | nil => exact absurd rfl hc
    | cons a t => rfl
  rcases hcl : classify (acc ++ c) with ⟨st, hn⟩
  rw [hcl] at hd
  simp only at hd
  subst hd
  have hdp : detectPrompt d (acc ++ c)
      = (some RouterState.ERROR, hn, detectorUpdate d RouterState.ERROR hn) := by
    unfold detectPrompt
    rw [hcl]
  simp only [execLoop, hcE, Bool.false_eq_true, if_false, hm, hdp]
  have hne : ¬((some p : Option RouterState) = none ∨
      (some p : Option RouterState) = some RouterState.ERROR) := by
    simp [hp]
  rw [if_neg hne]
  simp

theorem c2_error_returns_failure_witness :
    (str "% Invalid input" : Str) ≠ [] ∧
    moreSearch ([] ++ str "% Invalid input") = false ∧
    (classify ([] ++ str "% Invalid input")).1 = some RouterState.ERROR ∧
    (execLoop (some RouterState.PRIVILEGED_MODE) 3 [str "% Invalid input"] []
        initDetector 0).ok = false ∧
    (execLoop (some RouterState.PRIVILEGED_MODE) 3 [str "% Invalid input"] []
        initDetector 0).output = [] ++ str "% Invalid input" :=
  ⟨by decide, by decide, by decide,
   (c2_error_returns_failure RouterState.PRIVILEGED_MODE (by decide) 2
      (str "% Invalid input") [] [] initDetector 0 (by decide) (by decide)
      (by decide)).1,
   (c2_error_returns_failure RouterState.PRIVILEGED_MODE (by decide) 2
      (str "% Invalid input") [] [] initDetector 0 (by decide) (by decide)
      (by decide)).2⟩

/-- C3: the pagination handler searches the whole accumulated output
for `--More--` instead of the fresh chunk, and nothing ever removes the
marker from the accumulator, so after the first marker every iteration
takes the pagination branch, prompt detection is never reached again,
and the command times out returning failure — even though the final
accumulated output ends in a prompt the detector recognises.  The
returned output still contains the `--More--` token. -/
theorem c3_pagination_livelock :
    (executeOnce true (some RouterState.PRIVILEGED_MODE) 6
        [str "--More--", str "\nRouter#"] initDetector).ok = false ∧
    (executeOnce true (some RouterState.PRIVILEGED_MODE) 6
        [str "--More--", str "\nRouter#"] initDetector).output
      = str "--More--" ++ str "\nRouter#" ∧
    moreSearch (str "--More--" ++ str "\nRouter#") = true ∧
    (classify (str "--More--" ++ str "\nRouter#")).1
      = some RouterState.PRIVILEGED_MODE ∧
    (executeOnce true (some RouterState.PRIVILEGED_MODE) 6
        [str "--More--", str "\nRouter#"] initDetector).spaces = 2 := by
  refine ⟨by decide, by decide, by decide, by decide, by decide⟩

/-- C6 fails as stated: the `[OK]` marker is matched with exact case
(only `bytes copied` is checked against the lowered output), so an
output containing `[ok]` — accepted under the claim's case-insensitive
reading — is rejected by `save_config`. -/
theorem c6_counterexample :
    saveConfigVerdict (str "[ok]") [] = false ∧
    containsCI (str "[ok]") (str "[OK]") = true := by
  constructor
  · decide
  · decide

/-- C6 amended: `save_config` succeeds iff the output (extended by the
extra read when a `Destination filename` prompt appeared) contains
`bytes copied` case-insensitively, or contains `[OK]` with exact
case. -/
theorem c6_save_verdict (execOut extra out : Str)
    (hout : out = if hasSubstr execOut (str "Destination filename")
      then execOut ++ extra else execOut) :
    saveConfigVerdict execOut extra = true ↔
      (containsCI out (str "bytes copied") = true ∨
       hasSubstr out (str "[OK]") = true) := by
  have hlow : lower (str "bytes copied") = str "bytes copied" := by decide
  subst hout
  unfold saveConfigVerdict containsCI
  rw [hlow]
  simp [Bool.or_eq_true]

theorem c6_save_verdict_witness :
    saveConfigVerdict (str "Building configuration... [OK]") [] = true :=
  (c6_save_verdict (str "Building configuration... [OK]") []
      (str "Building configuration... [OK]") (by decide)).mpr
    (Or.inr (by decide))

/-- C4 fails as stated: the final verification is invoked but its
result is discarded, so a run in which every dialogue succeeds except
the verification still returns true and still transitions the state
machine to `COMPLETE`. -/
theorem c4_counterexample :
    stepsVerifyFails.verify = false ∧
    (completePasswordReset stepsVerifyFails false false true 1 2 3
        (machineAt RecoveryState.IOS_NO_CONFIG)).1 = true ∧
    (completePasswordReset stepsVerifyFails false false true 1 2 3
        (machineAt RecoveryState.IOS_NO_CONFIG)).2.current_state
      = RecoveryState.COMPLETE := by
  refine ⟨rfl, by decide, by decide⟩

/-- C4 amended: `complete_password_reset` runs verify-access,
reset-enable-secret, the optional console and VTY resets,
restore-confreg, save and the final verification in that order, but its
result is `true` exactly when verify-access, reset-enable-secret,
restore-confreg and save succeed — the console and VTY resets and the
final verification are executed with their results discarded.  On that
success path, started from `IOS_NO_CONFIG`, the machine ends in
`COMPLETE`; on any failing path the machine never reaches
`COMPLETE`. -/
theorem c4_workflow_outcome (o : StepOutcomes) (cg vg ia : Bool)
    (t1 t2 t3 : ℕ) (m : Machine) :
    (completePasswordReset o cg vg ia t1 t2 t3 m).1
      = (o.verifyAccess && o.resetEnable && o.restoreConfreg && o.save) ∧
    (m.current_state = RecoveryState.IOS_NO_CONFIG →
      (completePasswordReset o cg vg ia t1 t2 t3 m).1 = true →
      (completePasswordReset o cg vg ia t1 t2 t3 m).2.current_state
        = RecoveryState.COMPLETE) ∧
    (m.current_state ≠ RecoveryState.COMPLETE →
      (completePasswordReset o cg vg ia t1 t2 t3 m).1 = false →
      (completePasswordReset o cg vg ia t1 t2 t3 m).2.current_state
        ≠ RecoveryState.COMPLETE) := by
  obtain ⟨va, re, rc, rv, rr, rs, rV⟩ := o
  refine ⟨?_, ?_, ?_⟩
  · cases va <;> cases re <;> cases rr <;> cases rs <;>
      simp [completePasswordReset, resetEnableSecretStep, saveConfigurationStep]
  · intro hm hres
    cases va
    · exact absurd hres (by simp [completePasswordReset])
    cases re
    · exact absurd hres
        (by simp [completePasswordReset, resetEnableSecretStep])
    cases rr
    · exact absurd hres
        (by simp [completePasswordReset, resetEnableSecretStep])
    cases rs
    · exact absurd hres (by simp [completePasswordReset,
        resetEnableSecretStep, saveConfigurationStep])
    · simp [completePasswordReset, resetEnableSecretStep,
        saveConfigurationStep, Machine.transition, validTransitions, hm]
  · intro hm hres
    have h1 : (m.transition RecoveryState.PASSWORD_RESET t1
        (str "Resetting enable secret")).2.current_state
        ≠ RecoveryState.COMPLETE := by
      rw [transition_current]
      split
      · decide
      · exact hm
    have h2 : ((m.transition RecoveryState.PASSWORD_RESET t1
        (str "Resetting enable secret")).2.transition
          RecoveryState.CONFIG_SAVED t2
          (str "Saving configuration")).2.current_state
        ≠ RecoveryState.COMPLETE := by
      rw [transition_current]
      split
      · decide
      · exact h1
    cases va
    · simpa [completePasswordReset] using hm
    cases re
    · simpa [completePasswordReset, resetEnableSecretStep] using h1
    cases rr
    · simpa [completePasswordReset, resetEnableSecretStep] using h1
    cases rs
    · simpa [completePasswordReset, resetEnableSecretStep,
        saveConfigurationStep] using h2
    · exact absurd hres (by simp [completePasswordReset,
        resetEnableSecretStep, saveConfigurationStep])

theorem c4_workflow_outcome_witness :
    (completePasswordReset stepsVerifyFails false false true 1 2 3
        (machineAt RecoveryState.IOS_NO_CONFIG)).1
      = (stepsVerifyFails.verifyAccess && stepsVerifyFails.resetEnable &&
          stepsVerifyFails.restoreConfreg && stepsVerifyFails.save) ∧
    (machineAt RecoveryState.IOS_NO_CONFIG).current_state
      = RecoveryState.IOS_NO_CONFIG ∧
    (completePasswordReset stepsVerifyFails false false true 1 2 3
        (machineAt RecoveryState.IOS_NO_CONFIG)).2.current_state
      = RecoveryState.COMPLETE :=
  ⟨(c4_workflow_outcome stepsVerifyFails false false true 1 2 3
      (machineAt RecoveryState.IOS_NO_CONFIG)).1,
   rfl,
   (c4_workflow_outcome stepsVerifyFails false false true 1 2 3
      (machineAt RecoveryState.IOS_NO_CONFIG)).2.1 rfl
     ((c4_workflow_outcome stepsVerifyFails false false true 1 2 3
        (machineAt RecoveryState.IOS_NO_CONFIG)).1.trans (by decide))⟩

/-- C9: `retry` re-invokes the thunk only on a raised exception; the
first attempt that returns normally — whatever the returned value is —
ends the loop with that value after exactly that many invocations,
provided the earlier attempts raised non-permanent errors within the
retry budget. -/
theorem c9_return_ends_retry {E A : Type} (outcomes : ℕ → Except E A)
    (config : RetryConfig) (perm : E → Bool) (k : ℕ) (v : A)
    (hk1 : 1 ≤ k) (hk2 : k ≤ config.max_retries)
    (hpre : ∀ i, 1 ≤ i → i < k →
      ∃ e, outcomes i = Except.error e ∧ perm e = false)
    (hk : outcomes k = Except.ok v) :
    retryRun outcomes config perm = (Except.ok v, k) := by
  have main : ∀ fuel attempt last, attempt + fuel = config.max_retries + 1 →
      attempt ≤ k → (∀ i, attempt ≤ i → i < k →
        ∃ e, outcomes i = Except.error e ∧ perm e = false) →
      retryLoop outcomes config perm attempt fuel last
        = (Except.ok v, k + 1 - attempt) := by
    intro fuel
    induction fuel with
    | zero =>
      intro attempt last hsum hle _
      omega
    | succ n ih =>
      intro attempt last hsum hle hpre2
      by_cases hak : attempt = k
      · subst hak
        simp [retryLoop, hk]
      · have hlt : attempt < k := lt_of_le_of_ne hle hak
        obtain ⟨e, he, hpe⟩ := hpre2 attempt le_rfl hlt
        have hsr : shouldRetry e attempt config perm = true := by
          unfold shouldRetry
          have : ¬config.max_retries ≤ attempt := by omega
          simp [this, hpe]
        have hrec := ih (attempt + 1) (some e) (by omega) (by omega)
          (fun i hi1 hi2 => hpre2 i (by omega) hi2)
        simp [retryLoop, he, hsr, hrec]
        omega
  have h := main config.max_retries 1 none (by omega) hk1 hpre
  unfold retryRun
  rw [h, Nat.add_sub_cancel]

theorem c9_return_ends_retry_witness :
    (1 : ℕ) ≤ 1 ∧ (1 : ℕ) ≤ execRetryConfig.max_retries ∧
    retryRun (fun _ => (Except.ok false : Except String Bool)) execRetryConfig
        (fun _ => false)
      = (Except.ok false, 1) :=
  ⟨le_rfl, by decide,
   c9_return_ends_retry (fun _ => (Except.ok false : Except String Bool))
     execRetryConfig (fun _ => false) 1 false le_rfl (by decide)
     (fun i h1 h2 => absurd (Nat.lt_of_le_of_lt h1 h2) (Nat.lt_irrefl 1))
     rfl⟩

/-- When every attempt in range passes the deadline guard, has its
break pulse sent successfully by the first (standard) method, and sees
a buffer never classified as `ROM_MONITOR`, the attempt loop fails and
one successful standard break-attempt record is appended per
attempt. -/
theorem breakAttemptLoop_exhaust (timeout : ℕ) (elapsed : ℕ → ℕ)
    (hw : ℕ → ℕ → MethodOutcome) (buffer : ℕ → Str) :
    ∀ (fuel attempt : ℕ) (d : Detector) (recs : List BreakRecord),
    (∀ i, attempt ≤ i → i < attempt + fuel → elapsed i ≤ timeout) →
    (∀ i, attempt ≤ i → i < attempt + fuel → hw i 0 = MethodOutcome.ok) →
    (∀ i, attempt ≤ i → i < attempt + fuel →
      (classify (buffer i)).1 ≠ some RouterState.ROM_MONITOR) →
    (breakAttemptLoop timeout elapsed hw buffer attempt fuel d recs).1 = false ∧
    (breakAttemptLoop timeout elapsed hw buffer attempt fuel d recs).2.2
      = recs ++ List.replicate fuel ⟨str "standard", true⟩ := by
  intro fuel
  induction fuel with
  | zero =>
    intro attempt d recs _ _ _
    simp [breakAttemptLoop]
  | succ n ih =>
    intro attempt d recs h1 h2 h3
    have hg : ¬timeout < elapsed attempt :=
      Nat.not_lt.mpr (h1 attempt le_rfl (by omega))
    have hsb := sendBreak_ok (hw attempt) (h2 attempt le_rfl (by omega))
    rcases hdp : detectPrompt d (buffer attempt) with ⟨st, hn, d2⟩
    have hst : st ≠ some RouterState.ROM_MONITOR := by
      have hf := detectPrompt_fst d (buffer attempt)
      rw [hdp] at hf
      simp only [Prod.fst] at hf
      rw [hf]
      exact h3 attempt le_rfl (by omega)
    have hih := ih (attempt + 1) d2 (recs ++ [⟨str "standard", true⟩])
      (fun i hi1 hi2 => h1 i (by omega) (by omega))
      (fun i hi1 hi2 => h2 i (by omega) (by omega))
      (fun i hi1 hi2 => h3 i (by omega) (by omega))
    have hred : breakAttemptLoop timeout elapsed hw buffer attempt (n + 1) d recs
        = breakAttemptLoop timeout elapsed hw buffer (attempt + 1) n d2
            (recs ++ [⟨str "standard", true⟩]) := by
      simp only [breakAttemptLoop]
      rw [if_neg hg, hsb, hdp]
      simp [hst]
    rw [hred]
    refine ⟨hih.1, ?_⟩
    rw [hih.2, List.append_assoc]
    simp [List.replicate_succ]

/-- C5 fails as stated: in the exhaustion scenario — the break signal
itself is sent successfully every time but the console never shows a
ROM-monitor prompt — the driver does return false after 5 attempts with
the machine left in `SENDING_BREAK`, and exactly 5 break-attempt
records exist, but every record has `success=true`: the record's
success field reflects transmission of the break signal, not
ROM-monitor entry. -/
theorem c5_counterexample :
    (sendBreakSequence 60 (fun i => 3 * i) (fun _ _ => MethodOutcome.ok)
        (fun _ => []) 0 1 (machineAt RecoveryState.WAITING_BOOT)
        initDetector).ok = false ∧
    (sendBreakSequence 60 (fun i => 3 * i) (fun _ _ => MethodOutcome.ok)
        (fun _ => []) 0 1 (machineAt RecoveryState.WAITING_BOOT)
        initDetector).machine.current_state = RecoveryState.SENDING_BREAK ∧
    (sendBreakSequence 60 (fun i => 3 * i) (fun _ _ => MethodOutcome.ok)
        (fun _ => []) 0 1 (machineAt RecoveryState.WAITING_BOOT)
        initDetector).records.length = 5 ∧
    (sendBreakSequence 60 (fun i => 3 * i) (fun _ _ => MethodOutcome.ok)
        (fun _ => []) 0 1 (machineAt RecoveryState.WAITING_BOOT)
        initDetector).records.all (fun r => r.success) = true := by
  refine ⟨by decide, by decide, by decide, by decide⟩

/-- C5 amended: `send_break_sequence` makes at most 5 break attempts;
when the deadline guard never fires, the break signal is sent by the
first (standard) method each time, and no attempt's buffer is
classified as `ROM_MONITOR`, it returns false, the machine (entered
into `SENDING_BREAK` at the start of the call) remains in
`SENDING_BREAK`, and exactly 5 break-attempt records have been
recorded, each with `success=true` — the field records signal
transmission, not ROM-monitor entry. -/
theorem c5_break_exhaustion (timeout : ℕ) (elapsed : ℕ → ℕ)
    (hw : ℕ → ℕ → MethodOutcome) (buffer : ℕ → Str) (t1 t2 : ℕ)
    (m : Machine) (d : Detector)
    (hm : m.current_state = RecoveryState.WAITING_BOOT)
    (hg : ∀ i, 1 ≤ i → i ≤ 5 → elapsed i ≤ timeout)
    (hh : ∀ i, 1 ≤ i → i ≤ 5 → hw i 0 = MethodOutcome.ok)
    (hb : ∀ i, 1 ≤ i → i ≤ 5 →
      (classify (buffer i)).1 ≠ some RouterState.ROM_MONITOR) :
    (sendBreakSequence timeout elapsed hw buffer t1 t2 m d).ok = false ∧
    (sendBreakSequence timeout elapsed hw buffer t1 t2 m d).machine.current_state
      = RecoveryState.SENDING_BREAK ∧
    (sendBreakSequence timeout elapsed hw buffer t1 t2 m d).records
      = List.replicate 5 ⟨str "standard", true⟩ := by
  have hbl := breakAttemptLoop_exhaust timeout elapsed hw buffer 5 1 d []
    (fun i hi1 hi2 => hg i hi1 (by omega))
    (fun i hi1 hi2 => hh i hi1 (by omega))
    (fun i hi1 hi2 => hb i hi1 (by omega))
  have hcur : ((m.transition RecoveryState.SENDING_BREAK t1
      (str "Sending break sequence")).2).current_state
      = RecoveryState.SENDING_BREAK := by
    rw [transition_current, hm]
    simp [validTransitions]
  simp only [sendBreakSequence, hbl.1, Bool.false_eq_true, if_false]
  exact ⟨trivial, hcur, by rw [hbl.2]; simp⟩

theorem c5_break_exhaustion_witness :
    (machineAt RecoveryState.WAITING_BOOT).current_state
      = RecoveryState.WAITING_BOOT ∧
    (sendBreakSequence 60 (fun i => 3 * i) (fun _ _ => MethodOutcome.ok)
        (fun _ => []) 0 1 (machineAt RecoveryState.WAITING_BOOT)
        initDetector).records
      = List.replicate 5 ⟨str "standard", true⟩ :=
  ⟨rfl,
   (c5_break_exhaustion 60 (fun i => 3 * i) (fun _ _ => MethodOutcome.ok)
      (fun _ => []) 0 1 (machineAt RecoveryState.WAITING_BOOT) initDetector
      rfl (fun i h1 h2 => show 3 * i ≤ 60 by omega) (fun i h1 h2 => rfl)
      (fun i h1 h2 =>
        show (classify ([] : Str)).1 ≠ some RouterState.ROM_MONITOR
          by decide)).2.2⟩

/-- Sanity check mirroring `scripts/test_tool.py`: `Router#` classifies
as privileged mode with hostname `Router`. -/
theorem classify_router_hash :
    (classify (str "Router#")).1 = some RouterState.PRIVILEGED_MODE ∧
    (classify (str "Router#")).2 = some (str "Router") := by
  refine ⟨by decide, by decide⟩

/-- Sanity checks of the remaining pattern families on canonical
console lines. -/
theorem classify_family_samples :
    (classify (str "% Invalid input")).1 = some RouterState.ERROR ∧
    (classify (str "rommon 1> ")).1 = some RouterState.ROM_MONITOR ∧
    (classify (str "Switch(config-line)#")).1 = some RouterState.CONFIG_MODE ∧
    (classify (str "host> ")).1 = some RouterState.USER_MODE ∧
    (classify (str "Password: ")).1 = some RouterState.PASSWORD_PROMPT ∧
    (classify (str "System Bootstrap, Version 15")).1 = some RouterState.BOOTING ∧
    (classify (str "")).1 = none := by
  refine ⟨by decide, by decide, by decide, by decide, by decide, by decide,
    by decide⟩

end Revcisco
